import Mathlib

/-!
Shallow embedding of the Meteora-Agent instruction-processing core
(src/processer.rs, src/token.rs, src/utils.rs, src/message.rs).

External collaborators (the carbon decoder's arrange_accounts, the Solana
RPC network, the Borsh metadata parser, the SHA-256 hash and the
curve-membership test used by program-derived-address search, and the
Telegram send endpoint) are passed in as function parameters, so one run of
the embedded `process` is one run of the Rust `process` under a fixed
environment.  Effects are made observable through an explicit `Trace`
recording the mints passed to `get_token_metadata`, the messages passed to
`TelegramService::send_message`, and the log lines emitted.
-/

namespace Meteora

/-- Account addresses as their base58 display strings: the watchlist in
config.json stores base58 strings and `check_accounts_in_client` compares
`wallet == &pk.to_string()`, so string equality is address equality. -/
abbrev Pubkey := String

/-- One emitted log line, tagged with its level (`info!`, `error!`, `warn!`). -/
inductive Log
  | info (s : String)
  | error (s : String)
  | warn (s : String)
deriving DecidableEq, Repr

/-- Observable effects of one `process` call: mints sent to
`get_token_metadata`, messages sent to `TelegramService::send_message`,
and log lines, each in call order. -/
structure Trace where
  resolvedMints : List Pubkey
  sentMessages : List String
  logs : List Log
deriving DecidableEq, Repr

/-- Payload of `AddLiquidityEvent` / `RemoveLiquidityEvent` (the fields read
by processer.rs).  The Rust field `from` is called `fromWallet` here because
`from` is a Lean keyword. -/
structure LiquidityEventFields where
  lb_pair : Pubkey
  fromWallet : Pubkey
  position : Pubkey
  amounts0 : Nat
  amounts1 : Nat
  active_bin_id : Int
deriving DecidableEq, Repr

/-- The `liquidity_parameter` record inside the `AddLiquidity` payload
(only the two u64 amounts are read by the processor). -/
structure LiquidityParameter where
  amount_x : Nat
  amount_y : Nat
deriving DecidableEq, Repr

/-- The `AddLiquidity` instruction payload wraps a `liquidity_parameter`. -/
structure LiquidityParameterWrap where
  liquidity_parameter : LiquidityParameter
deriving DecidableEq, Repr

/-- The `RemoveLiquidity` payload: processer.rs only reads the length of
`bin_liquidity_removal`, so elements are kept abstract as pairs. -/
structure RemoveLiquidityParams where
  bin_liquidity_removal : List (Int × Nat)
deriving DecidableEq, Repr

/-- The `Swap` instruction payload fields read by the processor. -/
structure SwapParameters where
  amount_in : Nat
  min_amount_out : Nat
deriving DecidableEq, Repr

/-- The tagged union of decoded instructions.  Variants the processor
handles only through its catch-all arm are collapsed into `other` carrying
the variant name used by `get_instruction_name`. -/
inductive MeteoraDlmmInstruction
  | addLiquidityEvent (e : LiquidityEventFields)
  | removeLiquidityEvent (e : LiquidityEventFields)
  | addLiquidity (p : LiquidityParameterWrap)
  | removeLiquidity (p : RemoveLiquidityParams)
  | swap (p : SwapParameters)
  | other (name : String)
deriving DecidableEq, Repr

/-- The named account roles the processor reads after a successful
`arrange_accounts` (only the two mint roles are used). -/
structure ArrangedAccounts where
  token_x_mint : Pubkey
  token_y_mint : Pubkey
deriving DecidableEq, Repr

/-- The fixed environment of one `process` call: the two lazily-loaded
statics from utils.rs, and the external collaborators
(`get_token_metadata` outcome per mint, `send_message` outcome per
message, and the decoder crate's `arrange_accounts` per variant). -/
structure Env where
  client_account_filtering : Bool
  lp_wallets : List String
  resolve : Pubkey → Except String (String × String)
  send : String → Except String Unit
  arrangeAddLiquidity : List Pubkey → Option ArrangedAccounts
  arrangeRemoveLiquidity : List Pubkey → Option ArrangedAccounts
  arrangeSwap : List Pubkey → Option ArrangedAccounts

/-- processer.rs `check_accounts_in_client`: true iff the fee payer or any
static account key appears (as a base58 string) in LP_WALLETS. -/
def check_accounts_in_client (lp_wallets : List String) (fee_payer : Pubkey)
    (account_keys : List Pubkey) : Bool :=
  let fee_payer_is_lp := lp_wallets.any (fun wallet => wallet == fee_payer)
  let lp_account_keys := account_keys.filter
    (fun acc => lp_wallets.any (fun wallet => wallet == acc))
  fee_payer_is_lp || !lp_account_keys.isEmpty

/-- The exact notification text built at processer.rs lines 177-183. -/
def swap_message (sx sy : String) (amount_in min_amount_out : Nat) : String :=
  "Swap Instruction:\nToken X: " ++ sx ++ "\nToken Y: " ++ sy ++
    "\nAmount In: " ++ toString amount_in ++
    "\nMin Amount Out: " ++ toString min_amount_out

/-- The log line emitted after the match, at processer.rs lines 196-200,
depending on whether the transaction reports inner instructions. -/
def inner_instructions_log (hasInner : Bool) (signature : String) : Log :=
  if hasInner then .info ("Transaction signature: " ++ signature)
  else .info "This transaction has no inner instructions"

/-- Appends the post-match inner-instructions log line to a branch trace. -/
def append_tail (t : Trace) (hasInner : Bool) (signature : String) : Trace :=
  ⟨t.resolvedMints, t.sentMessages, t.logs ++ [inner_instructions_log hasInner signature]⟩

/-- The per-variant `match` of `process` (processer.rs lines 66-194) plus
the trailing inner-instructions log.  `Except.error ()` models a panic: the
`unwrap` at line 184 aborts the call before the trailing log runs. -/
def process_body (env : Env) (accounts : List Pubkey)
    (data : MeteoraDlmmInstruction) (hasInner : Bool) (signature : String) :
    Except Unit Unit × Trace :=
  let branch : Except Unit Unit × Trace :=
    match data with
    | .addLiquidityEvent event =>
        (.ok (), ⟨[], [], [.info "AddLiquidityEvent details:",
          .info ("  lb_pair: " ++ event.lb_pair),
          .info ("  from: " ++ event.fromWallet),
          .info ("  position: " ++ event.position),
          .info ("  amounts: [" ++ toString event.amounts0 ++ ", " ++
            toString event.amounts1 ++ "]"),
          .info ("  active_bin_id: " ++ toString event.active_bin_id)]⟩)
    | .removeLiquidityEvent event =>
        (.ok (), ⟨[], [], [.info "RemoveLiquidityEvent details:",
          .info ("  lb_pair: " ++ event.lb_pair),
          .info ("  from: " ++ event.fromWallet),
          .info ("  position: " ++ event.position),
          .info ("  amounts: [" ++ toString event.amounts0 ++ ", " ++
            toString event.amounts1 ++ "]"),
          .info ("  active_bin_id: " ++ toString event.active_bin_id)]⟩)
    | .addLiquidity lp =>
        match env.arrangeAddLiquidity accounts with
        | none => (.ok (), ⟨[], [], []⟩)
        | some accs =>
            let token_x := accs.token_x_mint
            let token_y := accs.token_y_mint
            let logx := match env.resolve token_x with
              | .ok (_, symbol) => Log.info ("  symbol_x: " ++ symbol)
              | .error e => Log.error ("  Failed to fetch token_x metadata: " ++ e)
            let logy := match env.resolve token_y with
              | .ok (_, symbol) => Log.info ("  symbol_y: " ++ symbol)
              | .error e => Log.error ("  Failed to fetch token_y metadata: " ++ e)
            let amount_x := lp.liquidity_parameter.amount_x
            -- processer.rs line 109 reads `.amount_x` into the variable it
            -- then logs as amount_y
            let amount_y := lp.liquidity_parameter.amount_x
            (.ok (), ⟨[token_x, token_y], [],
              [.info "AddLiquidity Instruction details:", logx, logy,
               .info ("  amount_x: " ++ toString amount_x),
               .info ("  amount_y: " ++ toString amount_y)]⟩)
    | .removeLiquidity rp =>
        match env.arrangeRemoveLiquidity accounts with
        | none => (.ok (), ⟨[], [], []⟩)
        | some accs =>
            let token_x := accs.token_x_mint
            let token_y := accs.token_y_mint
            let logx := match env.resolve token_x with
              | .ok (_, symbol) => Log.info ("  symbol_x: " ++ symbol)
              | .error e => Log.error ("  Failed to fetch token_x metadata: " ++ e)
            let logy := match env.resolve token_y with
              | .ok (_, symbol) => Log.info ("  symbol_y: " ++ symbol)
              | .error e => Log.error ("  Failed to fetch token_y metadata: " ++ e)
            (.ok (), ⟨[token_x, token_y], [],
              [.info "RemoveLiquidity Instruction details:", logx, logy,
               .info ("  bin_liquidity_removal_len: " ++
                 toString rp.bin_liquidity_removal.length)]⟩)
    | .swap sp =>
        match env.arrangeSwap accounts with
        | none => (.ok (), ⟨[], [], []⟩)
        | some accs =>
            let token_x := accs.token_x_mint
            let token_y := accs.token_y_mint
            let symbol_x : Option String := match env.resolve token_x with
              | .ok (_, symbol) => some symbol
              | .error _ => none
            let logx := match env.resolve token_x with
              | .ok (_, symbol) => Log.info ("  token_x: " ++ symbol)
              | .error e => Log.error ("  Failed to fetch user_token_in metadata: " ++ e)
            let symbol_y : Option String := match env.resolve token_y with
              | .ok (_, symbol) => some symbol
              | .error _ => none
            let logy := match env.resolve token_y with
              | .ok (_, symbol) => Log.info ("  token_y: " ++ symbol)
              | .error e => Log.error ("  Failed to fetch token_y metadata: " ++ e)
            let slogs := [Log.info "=======>Swap Instruction details:", logx, logy,
              Log.info ("  amount_in: " ++ toString sp.amount_in),
              Log.info ("  min_amount_out: " ++ toString sp.min_amount_out)]
            match symbol_x, symbol_y with
            | some sx, some sy =>
                let message := swap_message sx sy sp.amount_in sp.min_amount_out
                match env.send message with
                | .ok _ => (.ok (), ⟨[token_x, token_y], [message], slogs⟩)
                | .error _ => (.error (), ⟨[token_x, token_y], [message], slogs⟩)
            | _, _ => (.ok (), ⟨[token_x, token_y], [], slogs⟩)
    | .other name => (.ok (), ⟨[], [], [.info ("Instruction type: " ++ name)]⟩)
  match branch with
  | (.error u, t) => (.error u, t)
  | (.ok _, t) => (.ok (), append_tail t hasInner signature)

/-- processer.rs `process`: the CLIENT_ACCOUNT_FILTERING fast-reject gate
(lines 59-62), then the per-variant match and the trailing log. -/
def process (env : Env) (fee_payer : Pubkey) (account_keys : List Pubkey)
    (accounts : List Pubkey) (data : MeteoraDlmmInstruction)
    (hasInner : Bool) (signature : String) : Except Unit Unit × Trace :=
  if env.client_account_filtering &&
      !(check_accounts_in_client env.lp_wallets fee_payer account_keys) then
    (.ok (), ⟨[], [], [.warn "  CLIENT_ACCOUNT_FILTERING, check_accounts_in_client false"]⟩)
  else
    process_body env accounts data hasInner signature

/-! ## Watchlist loading (utils.rs) -/

/-- The config.json schema of utils.rs: a record with one field listing LP
wallet addresses. -/
structure Config where
  lp_wallets : List String
deriving DecidableEq, Repr

/-- utils.rs `read_lp_wallets_config`.  File system and JSON parser are the
external collaborators: `openFile` returns the file contents or `none` for
an open error (`File::open` failing), and `parseConfig` returns the decoded
`Config` or `none` for a serde parse error.  Both failure arms log and
return an empty vector. -/
def read_lp_wallets_config (openFile : String → Option String)
    (parseConfig : String → Option Config) (config_path : String) : List String :=
  match openFile config_path with
  | some contents =>
      match parseConfig contents with
      | some config => config.lp_wallets
      | none => []
  | none => []

/-! ## Token metadata resolution (token.rs) -/

/-- Raw bytes (each entry one byte value). -/
abbrev Bytes := List Nat

/-- The byte string "ProgramDerivedAddress" appended by the Solana runtime
when hashing PDA seed material. -/
def PDA_MARKER : Bytes :=
  [80, 114, 111, 103, 114, 97, 109, 68, 101, 114, 105, 118, 101, 100,
   65, 100, 100, 114, 101, 115, 115]

/-- The byte string "metadata", the fixed first seed used at token.rs
line 28. -/
def METADATA_SEED : Bytes := [109, 101, 116, 97, 100, 97, 116, 97]

/-- `mpl_token_metadata::ID`, the 32 bytes of the Metaplex token-metadata
program address (base58 metaqbxxUerdq28cj1RbAWkYQm3ybzjb6a8bt518x1s). -/
def TOKEN_METADATA_PROGRAM_ID : Bytes :=
  [0x0b, 0x70, 0x65, 0xb1, 0xe3, 0xd1, 0x7c, 0x45, 0x38, 0x9d, 0x52, 0x7f,
   0x6b, 0x04, 0xc3, 0xcd, 0x58, 0xb8, 0x6c, 0x73, 0x1a, 0xa0, 0xfd, 0xb5,
   0x49, 0xb6, 0xd1, 0xbc, 0x03, 0xf8, 0x29, 0x46]

/-- Solana's `Pubkey::create_program_address` with the SHA-256 hash and the
ed25519 curve-membership test abstracted as parameters: hash the seed
concatenation plus program id plus marker, fail if the digest lies on the
curve. -/
def create_program_address (sha256 : Bytes → Bytes) (is_on_curve : Bytes → Bool)
    (seeds : List Bytes) (program_id : Bytes) : Option Bytes :=
  let hashed := sha256 (seeds.flatten ++ program_id ++ PDA_MARKER)
  if is_on_curve hashed then none else some hashed

/-- The bump-seed search loop of `Pubkey::try_find_program_address`,
trying bump `b` then descending; bump 0 is never tried, matching the
255-iteration loop in the Solana SDK. -/
def find_pda_from_bump (sha256 : Bytes → Bytes) (is_on_curve : Bytes → Bool)
    (seeds : List Bytes) (program_id : Bytes) : Nat → Option (Bytes × Nat)
  | 0 => none
  | b + 1 =>
      match create_program_address sha256 is_on_curve (seeds ++ [[b + 1]]) program_id with
      | some addr => some (addr, b + 1)
      | none => find_pda_from_bump sha256 is_on_curve seeds program_id b

/-- `Pubkey::try_find_program_address`: search bumps 255 down to 1. -/
def try_find_program_address (sha256 : Bytes → Bytes) (is_on_curve : Bytes → Bool)
    (seeds : List Bytes) (program_id : Bytes) : Option (Bytes × Nat) :=
  find_pda_from_bump sha256 is_on_curve seeds program_id 255

/-- The metadata PDA computed at token.rs lines 27-33: seeds are the fixed
tag, the metadata program id, and the mint; the owning program is the
metadata program itself. -/
def derived_metadata_pda (sha256 : Bytes → Bytes) (is_on_curve : Bytes → Bool)
    (mint_pubkey : Bytes) : Option (Bytes × Nat) :=
  try_find_program_address sha256 is_on_curve
    [METADATA_SEED, TOKEN_METADATA_PROGRAM_ID, mint_pubkey]
    TOKEN_METADATA_PROGRAM_ID

/-- A fetched account as token.rs reads it: owner program and data bytes. -/
structure Account where
  owner : Bytes
  data : Bytes
deriving DecidableEq, Repr

/-- The two fields of the Metaplex `Metadata` record that token.rs reads,
as character lists so NUL padding is explicit. -/
structure Metadata where
  name : List Char
  symbol : List Char
deriving DecidableEq, Repr

/-- Rust `str::trim_end_matches(&#92;0)` specialised to the NUL character:
drop the maximal run of trailing NULs. -/
def trim_end_matches_nul (s : List Char) : List Char :=
  (s.reverse.dropWhile (fun c => c == '\x00')).reverse

/-- Outcome of `get_token_metadata`: the two `FetchMetadataError` arms it
can actually produce, the panic of `find_program_address` when no bump
works, or the trimmed name/symbol pair. -/
inductive FetchResult
  | bumpSearchFailed
  | rpcClientError
  | deserializationError
  | ok (name symbol : List Char)
deriving DecidableEq, Repr

/-- token.rs `get_token_metadata`.  Returns the outcome paired with the
list of addresses fetched over RPC (`get_account` calls), in order.
`get_account` models the RPC read (`Except.error` is a `ClientError`) and
`metadata_from_bytes` models `Metadata::from_bytes`.  The owner check at
lines 42-48 only logs a warning and does not alter the result, so it is
omitted from the trace. -/
def get_token_metadata (sha256 : Bytes → Bytes) (is_on_curve : Bytes → Bool)
    (get_account : Bytes → Except Unit Account)
    (metadata_from_bytes : Bytes → Except Unit Metadata)
    (mint_pubkey : Bytes) : FetchResult × List Bytes :=
  match derived_metadata_pda sha256 is_on_curve mint_pubkey with
  | none => (.bumpSearchFailed, [])
  | some (metadata_pda, _bump_seed) =>
      match get_account metadata_pda with
      | .error _ => (.rpcClientError, [metadata_pda])
      | .ok account =>
          match metadata_from_bytes account.data with
          | .error _ => (.deserializationError, [metadata_pda])
          | .ok metadata =>
              (.ok (trim_end_matches_nul metadata.name)
                 (trim_end_matches_nul metadata.symbol), [metadata_pda])

/-! ## Helper lemmas about NUL trimming -/

/-- Peeling the trimmed part off: a string is its trim followed by the
maximal trailing run of NULs. -/
theorem trim_end_matches_nul_append (s : List Char) :
    s = trim_end_matches_nul s ++
      List.replicate (s.reverse.takeWhile (fun c => c == '\x00')).length '\x00' := by
  have h1 := List.takeWhile_append_dropWhile (fun c => c == '\x00') s.reverse
  have h2 : (s.reverse.takeWhile (fun c => c == '\x00')).reverse =
      List.replicate (s.reverse.takeWhile (fun c => c == '\x00')).length '\x00' := by
    rw [← List.length_reverse]
    refine List.eq_replicate_length.2 ?_
    intro b hb
    rw [List.mem_reverse] at hb
    have hp : (b == '\x00') = true :=
      List.mem_takeWhile_imp (p := fun c => c == '\x00') hb
    exact eq_of_beq hp
  calc s = s.reverse.reverse := (List.reverse_reverse s).symm
    _ = (s.reverse.takeWhile (fun c => c == '\x00') ++
          s.reverse.dropWhile (fun c => c == '\x00')).reverse := by rw [h1]
    _ = (s.reverse.dropWhile (fun c => c == '\x00')).reverse ++
          (s.reverse.takeWhile (fun c => c == '\x00')).reverse := by
            rw [List.reverse_append]
    _ = trim_end_matches_nul s ++
          List.replicate (s.reverse.takeWhile (fun c => c == '\x00')).length '\x00' := by
            rw [h2]; rfl

/-- The head of a dropWhile does not satisfy the predicate. -/
theorem dropWhile_head_not (p : Char → Bool) :
    ∀ (l : List Char) (c : Char), (l.dropWhile p).head? = some c → p c = false := by
  intro l
  induction l with
  | nil => intro c h; simp [List.dropWhile] at h
  | cons a as ih =>
      intro c h
      rw [List.dropWhile_cons] at h
      by_cases hp : p a = true
      · rw [if_pos hp] at h
        exact ih c h
      · rw [if_neg hp] at h
        simp only [List.head?_cons, Option.some.injEq] at h
        subst h
        simpa using hp

/-- The trimmed string never ends in a NUL. -/
theorem trim_end_matches_nul_no_trailing (s : List Char) (c : Char)
    (h : (trim_end_matches_nul s).getLast? = some c) : c ≠ '\x00' := by
  unfold trim_end_matches_nul at h
  rw [List.getLast?_reverse] at h
  have hc := dropWhile_head_not (fun c => c == '\x00') s.reverse c h
  simpa using hc

/-! ## Claim theorems: token.rs and utils.rs -/

/-- Claim C4: loading the watchlist never aborts: a missing file or a
malformed file yields the empty list, and a file that parses yields exactly
the listed addresses. -/
theorem read_lp_wallets_config_total_cases
    (openFile : String → Option String) (parseConfig : String → Option Config)
    (config_path : String) :
    (openFile config_path = none →
       read_lp_wallets_config openFile parseConfig config_path = []) ∧
    (∀ contents, openFile config_path = some contents → parseConfig contents = none →
       read_lp_wallets_config openFile parseConfig config_path = []) ∧
    (∀ contents config, openFile config_path = some contents →
       parseConfig contents = some config →
       read_lp_wallets_config openFile parseConfig config_path = config.lp_wallets) := by
  refine ⟨fun h => by simp [read_lp_wallets_config, h],
    fun contents h1 h2 => by simp [read_lp_wallets_config, h1, h2],
    fun contents config h1 h2 => by simp [read_lp_wallets_config, h1, h2]⟩

/-- Witness for C4: a missing file loads the empty watchlist, a malformed
file loads the empty watchlist, and a parsed file loads exactly its listed
addresses. -/
theorem read_lp_wallets_config_total_cases_witness :
    read_lp_wallets_config (fun _ => none) (fun _ => some ⟨["w1"]⟩) "config.json" = [] ∧
    read_lp_wallets_config (fun _ => some "oops") (fun _ => none) "config.json" = [] ∧
    read_lp_wallets_config (fun _ => some "cfg") (fun _ => some ⟨["w1", "w2"]⟩)
      "config.json" = ["w1", "w2"] :=
  ⟨(read_lp_wallets_config_total_cases (fun _ => none) (fun _ => some ⟨["w1"]⟩)
      "config.json").1 rfl,
   (read_lp_wallets_config_total_cases (fun _ => some "oops") (fun _ => none)
      "config.json").2.1 "oops" rfl rfl,
   (read_lp_wallets_config_total_cases (fun _ => some "cfg")
      (fun _ => some ⟨["w1", "w2"]⟩) "config.json").2.2 "cfg" ⟨["w1", "w2"]⟩ rfl rfl⟩

/-- Claim C6: on a successful fetch and parse, the returned name and symbol
are the on-chain strings with exactly their trailing NULs removed: each
original equals the returned string followed by a run of NULs, and the
returned string does not end in a NUL (so embedded NULs survive). -/
theorem get_token_metadata_trims_only_trailing_nuls
    (sha256 : Bytes → Bytes) (is_on_curve : Bytes → Bool)
    (get_account : Bytes → Except Unit Account)
    (metadata_from_bytes : Bytes → Except Unit Metadata)
    (mint pda : Bytes) (bump : Nat) (account : Account) (md : Metadata)
    (hpda : derived_metadata_pda sha256 is_on_curve mint = some (pda, bump))
    (hacct : get_account pda = Except.ok account)
    (hparse : metadata_from_bytes account.data = Except.ok md) :
    (get_token_metadata sha256 is_on_curve get_account metadata_from_bytes mint).1 =
      .ok (trim_end_matches_nul md.name) (trim_end_matches_nul md.symbol) ∧
    (∃ k, md.name = trim_end_matches_nul md.name ++ List.replicate k '\x00') ∧
    (∀ c, (trim_end_matches_nul md.name).getLast? = some c → c ≠ '\x00') ∧
    (∃ k, md.symbol = trim_end_matches_nul md.symbol ++ List.replicate k '\x00') ∧
    (∀ c, (trim_end_matches_nul md.symbol).getLast? = some c → c ≠ '\x00') := by
  refine ⟨by simp [get_token_metadata, hpda, hacct, hparse],
    ⟨_, trim_end_matches_nul_append md.name⟩,
    fun c hc => trim_end_matches_nul_no_trailing md.name c hc,
    ⟨_, trim_end_matches_nul_append md.symbol⟩,
    fun c hc => trim_end_matches_nul_no_trailing md.symbol c hc⟩

/-- Witness for C6: with on-chain name "A NUL B" and symbol "ABC NUL NUL",
resolution returns the name unchanged (its NUL is embedded, not trailing)
and the symbol with its two trailing NULs removed. -/
theorem get_token_metadata_trims_only_trailing_nuls_witness :
    (get_token_metadata (fun _ => [7]) (fun _ => false)
      (fun _ => Except.ok ⟨TOKEN_METADATA_PROGRAM_ID, [1, 2, 3]⟩)
      (fun _ => Except.ok ⟨['A', '\x00', 'B'], ['A', 'B', 'C', '\x00', '\x00']⟩)
      [9]).1 = .ok ['A', '\x00', 'B'] ['A', 'B', 'C'] :=
  ((get_token_metadata_trims_only_trailing_nuls (fun _ => [7]) (fun _ => false)
      (fun _ => Except.ok ⟨TOKEN_METADATA_PROGRAM_ID, [1, 2, 3]⟩)
      (fun _ => Except.ok ⟨['A', '\x00', 'B'], ['A', 'B', 'C', '\x00', '\x00']⟩)
      [9] [7] 255 ⟨TOKEN_METADATA_PROGRAM_ID, [1, 2, 3]⟩
      ⟨['A', '\x00', 'B'], ['A', 'B', 'C', '\x00', '\x00']⟩
      rfl rfl rfl).1).trans (by decide)

/-- Claim C8: when the RPC read of the derived metadata account fails, the
resolver returns the RPC error arm, never any ok value. -/
theorem get_token_metadata_fetch_error_is_rpc_error
    (sha256 : Bytes → Bytes) (is_on_curve : Bytes → Bool)
    (get_account : Bytes → Except Unit Account)
    (metadata_from_bytes : Bytes → Except Unit Metadata)
    (mint pda : Bytes) (bump : Nat) (e : Unit)
    (hpda : derived_metadata_pda sha256 is_on_curve mint = some (pda, bump))
    (hacct : get_account pda = Except.error e) :
    (get_token_metadata sha256 is_on_curve get_account metadata_from_bytes mint).1 =
      .rpcClientError ∧
    ∀ n s, (get_token_metadata sha256 is_on_curve get_account metadata_from_bytes
      mint).1 ≠ .ok n s := by
  have hres : (get_token_metadata sha256 is_on_curve get_account metadata_from_bytes
      mint).1 = .rpcClientError := by
    simp [get_token_metadata, hpda, hacct]
  exact ⟨hres, fun n s h => by rw [hres] at h; exact FetchResult.noConfusion h⟩

/-- Witness for C8: with an RPC layer that rejects every read, resolution
of a concrete mint yields the RPC error arm. -/
theorem get_token_metadata_fetch_error_is_rpc_error_witness :
    (get_token_metadata (fun _ => [7]) (fun _ => false)
      (fun _ => Except.error ()) (fun _ => Except.ok ⟨[], []⟩) [9]).1 =
      .rpcClientError :=
  (get_token_metadata_fetch_error_is_rpc_error (fun _ => [7]) (fun _ => false)
    (fun _ => Except.error ()) (fun _ => Except.ok ⟨[], []⟩)
    [9] [7] 255 () rfl rfl).1

/-- Claim C9: the metadata account fetched by `get_token_metadata` is the
program-derived address computed from the mint and the fixed metadata
program id alone: two runs under arbitrary different network and parser
states query the byte-identical address. -/
theorem metadata_pda_depends_only_on_mint
    (sha256 : Bytes → Bytes) (is_on_curve : Bytes → Bool) (mint : Bytes)
    (ga₁ ga₂ : Bytes → Except Unit Account)
    (fb₁ fb₂ : Bytes → Except Unit Metadata) :
    (get_token_metadata sha256 is_on_curve ga₁ fb₁ mint).2 =
      (get_token_metadata sha256 is_on_curve ga₂ fb₂ mint).2 ∧
    (get_token_metadata sha256 is_on_curve ga₁ fb₁ mint).2 =
      (match derived_metadata_pda sha256 is_on_curve mint with
       | none => []
       | some (pda, _) => [pda]) := by
  have key : ∀ (ga : Bytes → Except Unit Account) (fb : Bytes → Except Unit Metadata),
      (get_token_metadata sha256 is_on_curve ga fb mint).2 =
        (match derived_metadata_pda sha256 is_on_curve mint with
         | none => []
         | some (pda, _) => [pda]) := by
    intro ga fb
    rcases hd : derived_metadata_pda sha256 is_on_curve mint with _ | ⟨pda, bump⟩
    · simp [get_token_metadata, hd]
    · rcases hga : ga pda with e | account
      · simp [get_token_metadata, hd, hga]
      · rcases hfb : fb account.data with e | md
        · simp [get_token_metadata, hd, hga, hfb]
        · simp [get_token_metadata, hd, hga, hfb]
  exact ⟨(key ga₁ fb₁).trans (key ga₂ fb₂).symm, key ga₁ fb₁⟩

/-! ## Helper lemmas about the processor gate -/

/-- When the toggle is off or a watched wallet is present, the fast-reject
condition at processer.rs line 59 is false. -/
theorem gate_passes (env : Env) (fee_payer : Pubkey) (account_keys : List Pubkey)
    (hg : env.client_account_filtering = false ∨
      check_accounts_in_client env.lp_wallets fee_payer account_keys = true) :
    (env.client_account_filtering &&
      !(check_accounts_in_client env.lp_wallets fee_payer account_keys)) = false := by
  rcases hg with h | h <;> simp [h]

/-- When the gate passes, `process` is the per-variant body. -/
theorem process_eq_body_of_gate (env : Env) (fee_payer : Pubkey)
    (account_keys accounts : List Pubkey) (data : MeteoraDlmmInstruction)
    (hasInner : Bool) (signature : String)
    (hg : env.client_account_filtering = false ∨
      check_accounts_in_client env.lp_wallets fee_payer account_keys = true) :
    process env fee_payer account_keys accounts data hasInner signature =
      process_body env accounts data hasInner signature := by
  simp [process, gate_passes env fee_payer account_keys hg]

/-! ## Claim theorems: processer.rs -/

/-- Claim C7: AddLiquidityEvent and RemoveLiquidityEvent instructions never
trigger metadata resolution or notification dispatch, for every environment
(any watchlist contents, either filtering-toggle state). -/
theorem events_no_resolution_no_dispatch
    (env : Env) (fee_payer : Pubkey) (account_keys accounts : List Pubkey)
    (e : LiquidityEventFields) (hasInner : Bool) (signature : String) :
    ((process env fee_payer account_keys accounts (.addLiquidityEvent e) hasInner
        signature).2.resolvedMints = [] ∧
     (process env fee_payer account_keys accounts (.addLiquidityEvent e) hasInner
        signature).2.sentMessages = []) ∧
    ((process env fee_payer account_keys accounts (.removeLiquidityEvent e) hasInner
        signature).2.resolvedMints = [] ∧
     (process env fee_payer account_keys accounts (.removeLiquidityEvent e) hasInner
        signature).2.sentMessages = []) := by
  by_cases hg : (env.client_account_filtering &&
      !(check_accounts_in_client env.lp_wallets fee_payer account_keys)) = true
  · simp [process, hg]
  · simp [process, hg, process_body, append_tail]

/-- Claim C5: with the filtering toggle on and no watchlist hit, `process`
returns immediately with the warn line as its only effect; with the toggle
off, the gate is bypassed (processing equals the per-variant body) and the
whole outcome is independent of the watchlist contents. -/
theorem relevance_gate_fast_reject_and_toggle_off
    (env : Env) (fee_payer : Pubkey) (account_keys accounts : List Pubkey)
    (data : MeteoraDlmmInstruction) (hasInner : Bool) (signature : String)
    (l₁ l₂ : List String) :
    (env.client_account_filtering = true →
      check_accounts_in_client env.lp_wallets fee_payer account_keys = false →
      process env fee_payer account_keys accounts data hasInner signature =
        (.ok (), ⟨[], [],
          [.warn "  CLIENT_ACCOUNT_FILTERING, check_accounts_in_client false"]⟩)) ∧
    (env.client_account_filtering = false →
      (process { env with lp_wallets := l₁ } fee_payer account_keys accounts data
          hasInner signature =
        process_body { env with lp_wallets := l₁ } accounts data hasInner signature ∧
       process { env with lp_wallets := l₁ } fee_payer account_keys accounts data
          hasInner signature =
        process { env with lp_wallets := l₂ } fee_payer account_keys accounts data
          hasInner signature)) := by
  constructor
  · intro h1 h2
    simp [process, h1, h2]
  · intro h1
    obtain ⟨cf, lw, res, snd, a1, a2, a3⟩ := env
    simp only at h1
    subst h1
    exact ⟨by simp [process], by cases data <;> rfl⟩

/-- Gate-on environment whose watchlist matches none of the keys used in
the witness. -/
def envGateOn : Env :=
  ⟨true, ["Wallet1"], fun _ => .error "rpc", fun _ => .ok (),
   fun _ => none, fun _ => none, fun _ => none⟩

/-- Gate-off environment. -/
def envGateOff : Env :=
  ⟨false, [], fun _ => .error "rpc", fun _ => .ok (),
   fun _ => none, fun _ => none, fun _ => none⟩

/-- Witness for C5: with the toggle on and no watchlist hit the call stops
with only the warn line; with the toggle off, a watchlist that matches the
fee payer and the empty watchlist give identical outcomes. -/
theorem relevance_gate_fast_reject_and_toggle_off_witness :
    process envGateOn "fp" ["k1", "k2"] [] (.other "Swap") true "sig" =
      (.ok (), ⟨[], [],
        [.warn "  CLIENT_ACCOUNT_FILTERING, check_accounts_in_client false"]⟩) ∧
    process { envGateOff with lp_wallets := ["fp"] } "fp" ["k1"] [] (.other "Swap")
        true "sig" =
      process { envGateOff with lp_wallets := [] } "fp" ["k1"] [] (.other "Swap")
        true "sig" :=
  ⟨(relevance_gate_fast_reject_and_toggle_off envGateOn "fp" ["k1", "k2"] []
      (.other "Swap") true "sig" [] []).1 rfl rfl,
   ((relevance_gate_fast_reject_and_toggle_off envGateOff "fp" ["k1"] []
      (.other "Swap") true "sig" ["fp"] []).2 rfl).2⟩

/-- Claim C10: when `arrange_accounts` fails for AddLiquidity,
RemoveLiquidity or Swap, the call completes successfully with no metadata
resolution, no notification, and no per-variant log output (only the
unconditional trailing inner-instructions line). -/
theorem arrange_failure_silently_skips
    (env : Env) (fee_payer : Pubkey) (account_keys accounts : List Pubkey)
    (lp : LiquidityParameterWrap) (rp : RemoveLiquidityParams)
    (sp : SwapParameters) (hasInner : Bool) (signature : String)
    (hg : env.client_account_filtering = false ∨
      check_accounts_in_client env.lp_wallets fee_payer account_keys = true) :
    (env.arrangeAddLiquidity accounts = none →
      process env fee_payer account_keys accounts (.addLiquidity lp) hasInner
          signature =
        (.ok (), ⟨[], [], [inner_instructions_log hasInner signature]⟩)) ∧
    (env.arrangeRemoveLiquidity accounts = none →
      process env fee_payer account_keys accounts (.removeLiquidity rp) hasInner
          signature =
        (.ok (), ⟨[], [], [inner_instructions_log hasInner signature]⟩)) ∧
    (env.arrangeSwap accounts = none →
      process env fee_payer account_keys accounts (.swap sp) hasInner signature =
        (.ok (), ⟨[], [], [inner_instructions_log hasInner signature]⟩)) := by
  rw [process_eq_body_of_gate env fee_payer account_keys accounts (.addLiquidity lp)
      hasInner signature hg,
    process_eq_body_of_gate env fee_payer account_keys accounts (.removeLiquidity rp)
      hasInner signature hg,
    process_eq_body_of_gate env fee_payer account_keys accounts (.swap sp)
      hasInner signature hg]
  refine ⟨fun h => ?_, fun h => ?_, fun h => ?_⟩ <;>
    simp [process_body, h, append_tail]

/-- Environment in which every `arrange_accounts` call fails. -/
def envArrangeNone : Env :=
  ⟨false, [], fun _ => .ok ("T", "S"), fun _ => .ok (),
   fun _ => none, fun _ => none, fun _ => none⟩

/-- Witness for C10: at concrete AddLiquidity, RemoveLiquidity and Swap
inputs whose accounts fail to arrange, the call succeeds with only the
trailing log line and no other effect. -/
theorem arrange_failure_silently_skips_witness :
    process envArrangeNone "fp" [] ["k"] (.addLiquidity ⟨⟨1, 2⟩⟩) false "sig" =
      (.ok (), ⟨[], [], [inner_instructions_log false "sig"]⟩) ∧
    process envArrangeNone "fp" [] ["k"] (.removeLiquidity ⟨[]⟩) false "sig" =
      (.ok (), ⟨[], [], [inner_instructions_log false "sig"]⟩) ∧
    process envArrangeNone "fp" [] ["k"] (.swap ⟨1, 2⟩) false "sig" =
      (.ok (), ⟨[], [], [inner_instructions_log false "sig"]⟩) :=
  ⟨(arrange_failure_silently_skips envArrangeNone "fp" [] ["k"] ⟨⟨1, 2⟩⟩ ⟨[]⟩
      ⟨1, 2⟩ false "sig" (Or.inl rfl)).1 rfl,
   (arrange_failure_silently_skips envArrangeNone "fp" [] ["k"] ⟨⟨1, 2⟩⟩ ⟨[]⟩
      ⟨1, 2⟩ false "sig" (Or.inl rfl)).2.1 rfl,
   (arrange_failure_silently_skips envArrangeNone "fp" [] ["k"] ⟨⟨1, 2⟩⟩ ⟨[]⟩
      ⟨1, 2⟩ false "sig" (Or.inl rfl)).2.2 rfl⟩

/-- Claim C1: for a Swap whose accounts arrange, the notification is
dispatched exactly once iff both mint resolutions succeed, and the single
message is the text carrying both symbols, the input amount and the minimum
output amount; if either resolution fails nothing is dispatched. -/
theorem swap_notification_iff_both_resolutions
    (env : Env) (fee_payer : Pubkey) (account_keys accounts : List Pubkey)
    (sp : SwapParameters) (accs : ArrangedAccounts) (hasInner : Bool)
    (signature : String)
    (hg : env.client_account_filtering = false ∨
      check_accounts_in_client env.lp_wallets fee_payer account_keys = true)
    (hArr : env.arrangeSwap accounts = some accs) :
    (∀ nx sx ny sy, env.resolve accs.token_x_mint = .ok (nx, sx) →
       env.resolve accs.token_y_mint = .ok (ny, sy) →
       (process env fee_payer account_keys accounts (.swap sp) hasInner
          signature).2.sentMessages =
         [swap_message sx sy sp.amount_in sp.min_amount_out]) ∧
    (∀ e, env.resolve accs.token_x_mint = .error e →
       (process env fee_payer account_keys accounts (.swap sp) hasInner
          signature).2.sentMessages = []) ∧
    (∀ e, env.resolve accs.token_y_mint = .error e →
       (process env fee_payer account_keys accounts (.swap sp) hasInner
          signature).2.sentMessages = []) := by
  rw [process_eq_body_of_gate env fee_payer account_keys accounts (.swap sp)
      hasInner signature hg]
  refine ⟨?_, ?_, ?_⟩
  · intro nx sx ny sy hx hy
    rcases hs : env.send (swap_message sx sy sp.amount_in sp.min_amount_out)
        with e | u <;>
      simp [process_body, hArr, hx, hy, hs, append_tail]
  · intro e hx
    rcases hy : env.resolve accs.token_y_mint with ey | ⟨ny, sy⟩ <;>
      simp [process_body, hArr, hx, hy, append_tail]
  · intro e hy
    rcases hx : env.resolve accs.token_x_mint with ex | ⟨nx, sx⟩ <;>
      simp [process_body, hArr, hx, hy, append_tail]

/-- Swap environment where both mints resolve and delivery succeeds. -/
def envSwapOk : Env :=
  ⟨false, [],
   fun m => if m == "MintX" then .ok ("TokenX", "USDC") else .ok ("TokenY", "SOL"),
   fun _ => .ok (), fun _ => none, fun _ => none,
   fun _ => some ⟨"MintX", "MintY"⟩⟩

/-- Swap environment where resolution of token_x_mint fails. -/
def envSwapFailX : Env :=
  ⟨false, [],
   fun m => if m == "MintX" then .error "rpc" else .ok ("TokenY", "SOL"),
   fun _ => .ok (), fun _ => none, fun _ => none,
   fun _ => some ⟨"MintX", "MintY"⟩⟩

/-- Swap environment where resolution of token_y_mint fails. -/
def envSwapFailY : Env :=
  ⟨false, [],
   fun m => if m == "MintY" then .error "rpc" else .ok ("TokenX", "USDC"),
   fun _ => .ok (), fun _ => none, fun _ => none,
   fun _ => some ⟨"MintX", "MintY"⟩⟩

/-- Witness for C1: both resolutions succeeding dispatches exactly the one
message with both symbols and both amounts; either failure dispatches
nothing. -/
theorem swap_notification_iff_both_resolutions_witness :
    (process envSwapOk "fp" [] ["k"] (.swap ⟨1000, 950⟩) true
        "sig").2.sentMessages = [swap_message "USDC" "SOL" 1000 950] ∧
    (process envSwapFailX "fp" [] ["k"] (.swap ⟨1000, 950⟩) true
        "sig").2.sentMessages = [] ∧
    (process envSwapFailY "fp" [] ["k"] (.swap ⟨1000, 950⟩) true
        "sig").2.sentMessages = [] :=
  ⟨(swap_notification_iff_both_resolutions envSwapOk "fp" [] ["k"] ⟨1000, 950⟩
      ⟨"MintX", "MintY"⟩ true "sig" (Or.inl rfl) rfl).1
      "TokenX" "USDC" "TokenY" "SOL" rfl rfl,
   (swap_notification_iff_both_resolutions envSwapFailX "fp" [] ["k"] ⟨1000, 950⟩
      ⟨"MintX", "MintY"⟩ true "sig" (Or.inl rfl) rfl).2.1 "rpc" rfl,
   (swap_notification_iff_both_resolutions envSwapFailY "fp" [] ["k"] ⟨1000, 950⟩
      ⟨"MintX", "MintY"⟩ true "sig" (Or.inl rfl) rfl).2.2 "rpc" rfl⟩

/-- Swap environment where both mints resolve but the outbound channel
rejects the delivery. -/
def envDeliveryError : Env :=
  ⟨false, [], fun _ => .ok ("Token", "SYM"),
   fun _ => .error "Forbidden: bot was blocked by the user",
   fun _ => none, fun _ => none, fun _ => some ⟨"MintX", "MintY"⟩⟩

/-- Counterexample to claim C2 as stated: at a concrete Swap whose delivery
is rejected, the processing call does not complete successfully (the unwrap
at processer.rs line 184 aborts it) and no error-level log line about the
delivery is written. -/
theorem delivery_error_not_survived_counterexample :
    (process envDeliveryError "fp" [] ["k"] (.swap ⟨1000, 950⟩) true "sig").1 =
      .error () ∧
    (process envDeliveryError "fp" [] ["k"] (.swap ⟨1000, 950⟩) true
        "sig").2.logs.all
      (fun l => match l with | .error _ => false | _ => true) = true :=
  ⟨rfl, rfl⟩

/-- Claim C2 amended: a delivery error is indeed not retried (the message
is handed to the channel exactly once), but it is fatal to that processing
call: the call aborts via the unwrap panic instead of returning success,
and no delivery-error log is written by this function. -/
theorem delivery_error_panics_and_no_retry
    (env : Env) (fee_payer : Pubkey) (account_keys accounts : List Pubkey)
    (sp : SwapParameters) (accs : ArrangedAccounts) (hasInner : Bool)
    (signature : String) (nx sx ny sy e : String)
    (hg : env.client_account_filtering = false ∨
      check_accounts_in_client env.lp_wallets fee_payer account_keys = true)
    (hArr : env.arrangeSwap accounts = some accs)
    (hx : env.resolve accs.token_x_mint = .ok (nx, sx))
    (hy : env.resolve accs.token_y_mint = .ok (ny, sy))
    (hsend : env.send (swap_message sx sy sp.amount_in sp.min_amount_out) =
      .error e) :
    (process env fee_payer account_keys accounts (.swap sp) hasInner
        signature).1 = .error () ∧
    (process env fee_payer account_keys accounts (.swap sp) hasInner
        signature).2.sentMessages =
      [swap_message sx sy sp.amount_in sp.min_amount_out] := by
  rw [process_eq_body_of_gate env fee_payer account_keys accounts (.swap sp)
      hasInner signature hg]
  constructor <;> simp [process_body, hArr, hx, hy, hsend]

/-- Witness for the amended C2: at a concrete rejected delivery the call
aborts and the message was dispatched exactly once. -/
theorem delivery_error_panics_and_no_retry_witness :
    (process envDeliveryError "fp" [] ["k"] (.swap ⟨1000, 950⟩) true "sig").1 =
      .error () ∧
    (process envDeliveryError "fp" [] ["k"] (.swap ⟨1000, 950⟩) true
        "sig").2.sentMessages = [swap_message "SYM" "SYM" 1000 950] :=
  delivery_error_panics_and_no_retry envDeliveryError "fp" [] ["k"] ⟨1000, 950⟩
    ⟨"MintX", "MintY"⟩ true "sig" "Token" "SYM" "Token" "SYM"
    "Forbidden: bot was blocked by the user" (Or.inl rfl) rfl rfl rfl rfl

/-- AddLiquidity environment: arrangement succeeds, both resolutions fail
(resolution is irrelevant to the amount lines). -/
def envAddLiquidity : Env :=
  ⟨false, [], fun _ => .error "rpc", fun _ => .ok (),
   fun _ => some ⟨"MintX", "MintY"⟩, fun _ => none, fun _ => none⟩

/-- Claim C3 evaluated at the failing input: for AddLiquidity with payload
amount_x = 500 and amount_y = 7, the emitted detail lines report
amount_y as 500 — the payload amount_x — and the true amount_y value 7
appears nowhere: processer.rs line 109 reads `.amount_x` into the variable
logged as amount_y. -/
theorem addliquidity_logs_amount_x_as_amount_y :
    (process envAddLiquidity "fp" [] ["k"] (.addLiquidity ⟨⟨500, 7⟩⟩) false
        "sig").2.logs =
      [.info "AddLiquidity Instruction details:",
       .error "  Failed to fetch token_x metadata: rpc",
       .error "  Failed to fetch token_y metadata: rpc",
       .info "  amount_x: 500",
       .info "  amount_y: 500",
       .info "This transaction has no inner instructions"] ∧
    ((process envAddLiquidity "fp" [] ["k"] (.addLiquidity ⟨⟨500, 7⟩⟩) false
        "sig").2.logs.contains (.info "  amount_y: 7") = false) :=
  ⟨rfl, rfl⟩

end Meteora
